import Mathlib

/-!
Shallow embedding of the `openai` Rust crate (src/chat.rs, src/embeddings.rs,
src/lib.rs): the chat-completion request builder and its serde serialization,
the streaming event decoder behind `ChatCompletionBuilder::create_stream`, the
non-streaming dispatch in `lib.rs`, and `Embedding::new` from embeddings.rs.

Conventions of the embedding:
* JSON documents are the inductive `Json` below; `f32` values are carried as
  `Rat` (no arithmetic is ever performed on them in the source, they are only
  stored and transported), `u64`/`u8` as `Nat`.
* serde's derived `Deserialize`/`Serialize` impls are spelled out as explicit
  `decode`/`serialize` functions following serde semantics: unknown object
  fields are ignored, `Option` fields treat a missing key as `none`,
  `#[serde(untagged)]` tries the variants in declaration order, and
  `#[serde(skip_serializing_if = ...)]` omits the key-value pair entirely.
* A Rust panic (`unwrap`, `todo!`, out-of-bounds `swap_remove`) is modelled as
  `Except.error` with the panic message; `Except.ok` is normal return.
* The external `serde_json::from_str` text parser is an abstract parameter
  `parse : String → Option Json`; everything after parsing (the typed decode)
  is embedded from the source.
-/

/-- A JSON document.  Object fields are an ordered association list, matching
serde's serializer output order; lookups take the first binding. -/
inductive Json where
  | null : Json
  | bool (b : Bool) : Json
  | num (q : Rat) : Json
  | str (s : String) : Json
  | arr (elems : List Json) : Json
  | obj (fields : List (String × Json)) : Json
  deriving Repr

namespace Json

/-- Field lookup in a JSON object; `none` on non-objects and missing keys. -/
def getField (j : Json) (key : String) : Option Json :=
  match j with
  | .obj fields => lookupField fields key
  | _ => none
where
  lookupField : List (String × Json) → String → Option Json
    | [], _ => none
    | (k, v) :: rest, key => if k = key then some v else lookupField rest key

/-- Decode a JSON value as an unsigned integer (`u64`/`u8` on the Rust side). -/
def asNat (j : Json) : Option Nat :=
  match j with
  | .num q => if q.den = 1 ∧ 0 ≤ q.num then some q.num.toNat else none
  | _ => none

/-- Decode a JSON value as a string. -/
def asStr (j : Json) : Option String :=
  match j with
  | .str s => some s
  | _ => none

/-- `true` iff the value is a JSON object: serde's derived struct
deserializers (including untagged struct variants) require a map. -/
def isObj (j : Json) : Bool :=
  match j with
  | .obj _ => true
  | _ => false

end Json

/-- Modelled from the spec: `ModelID` lives in src/models.rs, which is not part
of the provided sources ("model ID enumeration ... straightforward data-shape
mapping").  Modelled with the variants the provided sources use — chat.rs
documents `gpt-3.5-turbo` and `gpt-3.5-turbo-0301`, embeddings.rs uses
`text-embedding-ada-002` — with the kebab-case wire strings shown in
chat.rs's `test_event_deserialization`. -/
inductive ModelID where
  | gpt3_5Turbo : ModelID
  | gpt3_5Turbo0301 : ModelID
  | textEmbeddingAda002 : ModelID
  deriving Repr, DecidableEq

namespace ModelID

/-- Modelled from the spec: the wire string of each model ID. -/
def wireName : ModelID → String
  | .gpt3_5Turbo => "gpt-3.5-turbo"
  | .gpt3_5Turbo0301 => "gpt-3.5-turbo-0301"
  | .textEmbeddingAda002 => "text-embedding-ada-002"

/-- Modelled from the spec: `Deserialize` of a model ID from its wire string. -/
def decode (j : Json) : Option ModelID :=
  match j with
  | .str "gpt-3.5-turbo" => some .gpt3_5Turbo
  | .str "gpt-3.5-turbo-0301" => some .gpt3_5Turbo0301
  | .str "text-embedding-ada-002" => some .textEmbeddingAda002
  | _ => none

/-- Modelled from the spec: `Serialize` of a model ID. -/
def encode (m : ModelID) : Json := .str m.wireName

end ModelID

/-- chat.rs, `ChatCompletionMessageRole`: `System | User | Assistant`,
with `#[serde(rename_all = "lowercase")]`. -/
inductive ChatCompletionMessageRole where
  | system : ChatCompletionMessageRole
  | user : ChatCompletionMessageRole
  | assistant : ChatCompletionMessageRole
  deriving Repr, DecidableEq

namespace ChatCompletionMessageRole

/-- Derived `Serialize` with `rename_all = "lowercase"`. -/
def encode : ChatCompletionMessageRole → Json
  | .system => .str "system"
  | .user => .str "user"
  | .assistant => .str "assistant"

/-- Derived `Deserialize` with `rename_all = "lowercase"`. -/
def decode (j : Json) : Option ChatCompletionMessageRole :=
  match j with
  | .str "system" => some .system
  | .str "user" => some .user
  | .str "assistant" => some .assistant
  | _ => none

end ChatCompletionMessageRole

/-- chat.rs, `Delta`: `#[serde(untagged)]` union
`Role { role } | Content { content } | EndOfStream {}`. -/
inductive Delta where
  | role (role : ChatCompletionMessageRole) : Delta
  | content (content : String) : Delta
  | endOfStream : Delta
  deriving Repr, DecidableEq

namespace Delta

/-- Derived `Deserialize` for the `#[serde(untagged)]` enum: variants are tried
in declaration order (`Role`, then `Content`, then `EndOfStream`); each struct
variant requires a JSON object, requires its own fields, and ignores unknown
fields; `EndOfStream {}` therefore accepts any object. -/
def decode (j : Json) : Option Delta :=
  if j.isObj then
    match (j.getField "role").bind ChatCompletionMessageRole.decode with
    | some r => some (.role r)
    | none =>
      match (j.getField "content").bind Json.asStr with
      | some c => some (.content c)
      | none => some .endOfStream
  else
    none

/-- Modelled from the spec: the source derives only `Deserialize` for `Delta`,
no serializer exists in src/; the spec's untagged wire encoding ("the wire
encoding is untagged — disambiguated structurally", variants
`RoleAnnounce{role} | ContentFragment{content} | Empty{}`) serializes exactly
the variant's own fields as a JSON object. -/
def encode : Delta → Json
  | .role r => .obj [("role", r.encode)]
  | .content c => .obj [("content", .str c)]
  | .endOfStream => .obj []

end Delta

/-- chat.rs, `ChatCompletionChoiceDelta`:
`{ index: u64, delta: Delta, finish_reason: Option<String> }`. -/
structure ChatCompletionChoiceDelta where
  index : Nat
  delta : Delta
  finish_reason : Option String
  deriving Repr, DecidableEq

namespace ChatCompletionChoiceDelta

/-- serde decode of an `Option<String>` field value (`null` ↦ `none`). -/
def decodeOptString (j : Json) : Option (Option String) :=
  match j with
  | .null => some none
  | .str s => some (some s)
  | _ => none

/-- Derived `Deserialize` for `ChatCompletionChoiceDelta`: a JSON object with
required fields `index` and `delta`; the `Option` field `finish_reason`
defaults to `none` when the key is missing. -/
def decode (j : Json) : Option ChatCompletionChoiceDelta :=
  if j.isObj then
    match (j.getField "index").bind Json.asNat with
    | none => none
    | some idx =>
      match (j.getField "delta").bind Delta.decode with
      | none => none
      | some d =>
        match j.getField "finish_reason" with
        | none => some ⟨idx, d, none⟩
        | some fr =>
          match decodeOptString fr with
          | none => none
          | some o => some ⟨idx, d, o⟩
  else
    none

/-- Modelled from the spec: serializer counterpart of `decode` (no `Serialize`
impl exists in src/); fields in declaration order, `finish_reason = none`
encoded as JSON `null`. -/
def encode (c : ChatCompletionChoiceDelta) : Json :=
  .obj [("index", .num c.index),
        ("delta", c.delta.encode),
        ("finish_reason", match c.finish_reason with
                          | none => .null
                          | some s => .str s)]

end ChatCompletionChoiceDelta

/-- chat.rs, `ChatCompletionEvent`:
`{ id, object, created: u64, model: ModelID, choices: Vec<ChatCompletionChoiceDelta> }`. -/
structure ChatCompletionEvent where
  id : String
  object : String
  created : Nat
  model : ModelID
  choices : List ChatCompletionChoiceDelta
  deriving Repr, DecidableEq

namespace ChatCompletionEvent

/-- Decode each element of the `choices` array; any failure fails the whole. -/
def decodeChoices : List Json → Option (List ChatCompletionChoiceDelta)
  | [] => some []
  | j :: rest =>
    match ChatCompletionChoiceDelta.decode j with
    | none => none
    | some c =>
      match decodeChoices rest with
      | none => none
      | some cs => some (c :: cs)

/-- Derived `Deserialize` for `ChatCompletionEvent`: all five fields are
required (none is an `Option`). -/
def decode (j : Json) : Option ChatCompletionEvent :=
  if j.isObj then
    match (j.getField "id").bind Json.asStr with
    | none => none
    | some i =>
      match (j.getField "object").bind Json.asStr with
      | none => none
      | some o =>
        match (j.getField "created").bind Json.asNat with
        | none => none
        | some cr =>
          match (j.getField "model").bind ModelID.decode with
          | none => none
          | some m =>
            match j.getField "choices" with
            | some (.arr elems) =>
              match decodeChoices elems with
              | none => none
              | some cs => some ⟨i, o, cr, m, cs⟩
            | _ => none
  else
    none

end ChatCompletionEvent

/-- chat.rs, `ChatCompletionMessage`:
`{ role, content, name: Option<String> }`, with
`#[serde(skip_serializing_if = "Option::is_none")]` on `name`. -/
structure ChatCompletionMessage where
  role : ChatCompletionMessageRole
  content : String
  name : Option String
  deriving Repr, DecidableEq

namespace ChatCompletionMessage

/-- Derived `Serialize` for `ChatCompletionMessage` as the ordered field list:
`name` is omitted entirely when `none` (`skip_serializing_if = "Option::is_none"`). -/
def serializeFields (m : ChatCompletionMessage) : List (String × Json) :=
  [("role", m.role.encode), ("content", .str m.content)]
    ++ (match m.name with
        | none => []
        | some n => [("name", .str n)])

/-- The serialized message as a JSON object. -/
def serialize (m : ChatCompletionMessage) : Json := .obj m.serializeFields

end ChatCompletionMessage

/-- chat.rs, `ChatCompletionRequest`: the serializable request value; field
order is the struct's declaration order.  `stream` is `Option<bool>` with
builder default `Some(true)`. -/
structure ChatCompletionRequest where
  model : ModelID
  messages : List ChatCompletionMessage
  temperature : Option Rat
  top_p : Option Rat
  n : Option Nat
  stream : Option Bool
  stop : List String
  max_tokens : Option Nat
  presence_penalty : Option Rat
  frequency_penalty : Option Rat
  logit_bias : Option (List (String × Rat))
  user : String
  deriving Repr, DecidableEq

namespace ChatCompletionRequest

/-- One optional field of the serialized payload:
`#[serde(skip_serializing_if = "Option::is_none")]` yields nothing when the
option is `none`, otherwise one key-value pair. -/
def optField (key : String) (enc : α → Json) (o : Option α) : List (String × Json) :=
  match o with
  | none => []
  | some v => [(key, enc v)]

/-- Derived `Serialize` for `ChatCompletionRequest` as the ordered field list,
with each `skip_serializing_if` attribute applied:
`Option::is_none` on `temperature`, `top_p`, `n`, `stream`, `max_tokens`,
`presence_penalty`, `frequency_penalty`, `logit_bias`;
`Vec::is_empty` on `stop`; `String::is_empty` on `user`. -/
def serializeFields (r : ChatCompletionRequest) : List (String × Json) :=
  [("model", r.model.encode),
   ("messages", .arr (r.messages.map ChatCompletionMessage.serialize))]
    ++ optField "temperature" Json.num r.temperature
    ++ optField "top_p" Json.num r.top_p
    ++ optField "n" (fun k : Nat => Json.num k) r.n
    ++ optField "stream" Json.bool r.stream
    ++ (if r.stop = [] then [] else [("stop", .arr (r.stop.map Json.str))])
    ++ optField "max_tokens" (fun k : Nat => Json.num k) r.max_tokens
    ++ optField "presence_penalty" Json.num r.presence_penalty
    ++ optField "frequency_penalty" Json.num r.frequency_penalty
    ++ optField "logit_bias"
        (fun bias => Json.obj (bias.map fun kv => (kv.1, Json.num kv.2)))
        r.logit_bias
    ++ (if r.user = "" then [] else [("user", .str r.user)])

/-- The serialized request as a JSON object. -/
def serialize (r : ChatCompletionRequest) : Json := .obj r.serializeFields

end ChatCompletionRequest

/-- The keys present in a serialized field list. -/
def jsonKeys (fields : List (String × Json)) : List String := fields.map Prod.fst

/-- The key contributed by one `skip_serializing_if = "Option::is_none"`
field: nothing when unset, the key when set. -/
def optKey (key : String) (o : Option α) : List String :=
  match o with
  | none => []
  | some _ => [key]

/-- chat.rs, `ChatCompletionBuilder` (generated by `derive_builder` with
`pattern = "owned"`, `setter(strip_option, into)`): every settable field is
held as an `Option`; `stream` has `setter(skip)` so the builder holds no state
for it at all. -/
structure ChatCompletionBuilder where
  model : Option ModelID
  messages : Option (List ChatCompletionMessage)
  temperature : Option (Option Rat)
  top_p : Option (Option Rat)
  n : Option (Option Nat)
  stop : Option (List String)
  max_tokens : Option (Option Nat)
  presence_penalty : Option (Option Rat)
  frequency_penalty : Option (Option Rat)
  logit_bias : Option (Option (List (String × Rat)))
  user : Option String
  deriving Repr, DecidableEq

namespace ChatCompletionBuilder

/-- `ChatCompletionBuilder::create_empty()`: all fields unset. -/
def createEmpty : ChatCompletionBuilder :=
  ⟨none, none, none, none, none, none, none, none, none, none, none⟩

/-- Generated setter for `model`. -/
def setModel (b : ChatCompletionBuilder) (v : ModelID) : ChatCompletionBuilder :=
  { b with model := some v }

/-- Generated setter for `messages`. -/
def setMessages (b : ChatCompletionBuilder) (v : List ChatCompletionMessage) :
    ChatCompletionBuilder :=
  { b with messages := some v }

/-- Generated `strip_option` setter for `temperature`. -/
def setTemperature (b : ChatCompletionBuilder) (v : Rat) : ChatCompletionBuilder :=
  { b with temperature := some (some v) }

/-- Generated `strip_option` setter for `top_p`. -/
def setTopP (b : ChatCompletionBuilder) (v : Rat) : ChatCompletionBuilder :=
  { b with top_p := some (some v) }

/-- Generated `strip_option` setter for `n`. -/
def setN (b : ChatCompletionBuilder) (v : Nat) : ChatCompletionBuilder :=
  { b with n := some (some v) }

/-- Generated setter for `stop`. -/
def setStop (b : ChatCompletionBuilder) (v : List String) : ChatCompletionBuilder :=
  { b with stop := some v }

/-- Generated `strip_option` setter for `max_tokens`. -/
def setMaxTokens (b : ChatCompletionBuilder) (v : Nat) : ChatCompletionBuilder :=
  { b with max_tokens := some (some v) }

/-- Generated `strip_option` setter for `presence_penalty`. -/
def setPresencePenalty (b : ChatCompletionBuilder) (v : Rat) : ChatCompletionBuilder :=
  { b with presence_penalty := some (some v) }

/-- Generated `strip_option` setter for `frequency_penalty`. -/
def setFrequencyPenalty (b : ChatCompletionBuilder) (v : Rat) : ChatCompletionBuilder :=
  { b with frequency_penalty := some (some v) }

/-- Generated `strip_option` setter for `logit_bias`. -/
def setLogitBias (b : ChatCompletionBuilder) (v : List (String × Rat)) :
    ChatCompletionBuilder :=
  { b with logit_bias := some (some v) }

/-- Generated setter for `user`. -/
def setUser (b : ChatCompletionBuilder) (v : String) : ChatCompletionBuilder :=
  { b with user := some v }

/-- `ChatCompletionBuilder::build()`: `model` and `messages` carry no
`#[builder(default)]`, so leaving either unset is an
`UninitializedFieldError`; every other field falls back to its default
(`Default::default()` — `None`, `vec![]`, `""` — and `Some(true)` for the
skipped `stream` field). -/
def build (b : ChatCompletionBuilder) : Except String ChatCompletionRequest :=
  match b.model with
  | none => .error "uninitialized field: model"
  | some m =>
    match b.messages with
    | none => .error "uninitialized field: messages"
    | some msgs =>
      .ok { model := m
            messages := msgs
            temperature := b.temperature.getD none
            top_p := b.top_p.getD none
            n := b.n.getD none
            stream := some true
            stop := b.stop.getD []
            max_tokens := b.max_tokens.getD none
            presence_penalty := b.presence_penalty.getD none
            frequency_penalty := b.frequency_penalty.getD none
            logit_bias := b.logit_bias.getD none
            user := b.user.getD "" }

end ChatCompletionBuilder

/-- chat.rs, `ChatCompletion::builder(model, messages)`:
`create_empty().model(model).messages(messages)`. -/
def ChatCompletion.builder (model : ModelID) (messages : List ChatCompletionMessage) :
    ChatCompletionBuilder :=
  (ChatCompletionBuilder.createEmpty.setModel model).setMessages messages

/-- lib.rs, `Usage`: token accounting `{ prompt_tokens, completion_tokens,
total_tokens }` (all `u32`). -/
structure Usage where
  prompt_tokens : Nat
  completion_tokens : Nat
  total_tokens : Nat
  deriving Repr, DecidableEq

/-- chat.rs, `ChatCompletionChoice`:
`{ index: u64, message, finish_reason: String }`. -/
structure ChatCompletionChoice where
  index : Nat
  message : ChatCompletionMessage
  finish_reason : String
  deriving Repr, DecidableEq

/-- chat.rs, `ChatCompletion`: the non-streaming response
`{ id, object, created, model, choices, usage: Option<Usage> }`. -/
structure ChatCompletion where
  id : String
  object : String
  created : Nat
  model : ModelID
  choices : List ChatCompletionChoice
  usage : Option Usage
  deriving Repr, DecidableEq

/-- reqwest_eventsource's `Event`: either the connection-opened notification
or a message event carrying a `data` payload string. -/
inductive SseEvent where
  | opened : SseEvent
  | message (data : String) : SseEvent
  deriving Repr, DecidableEq

/-- One item of the `EventSource` stream: `Result<Event, Error>` — either an
SSE event or a transport-level connection/parse failure. -/
inductive StreamItem where
  | ok (e : SseEvent) : StreamItem
  | transportFailure (msg : String) : StreamItem
  deriving Repr, DecidableEq

/-- The panic message of `Result::unwrap()` on the failed `serde_json`
decode in `create_stream` (chat.rs line 166). -/
def unwrapPanic : String := "called Result::unwrap() on an Err value"

/-- The panic message of the `todo!()` placeholder in `openai_request`
(lib.rs line 41). -/
def todoPanic : String := "not yet implemented"

/-- lib.rs, `openai_request`: builds the request, opens an `EventSource`,
`dbg!`s every incoming item (no observable result), and then hits `todo!()` —
the function can never return a value; the decode of the response body is
commented out.  The request method/route/body do not influence the (absent)
result, so the embedding takes only the stream of incoming items. -/
def openai_request (α : Type) (events : List StreamItem) : Except String α :=
  -- the `while let` loop drains `events` into `dbg!` and drops them
  match events with
  | _ => .error todoPanic

/-- lib.rs, `openai_post`: `openai_request` with method POST and a JSON body. -/
def openai_post (α : Type) (route : String) (body : Json)
    (events : List StreamItem) : Except String α :=
  match route, body with
  | _, _ => openai_request α events

/-- chat.rs, `ChatCompletion::create(client, request)`:
`openai_post(client, "chat/completions", request)`. -/
def ChatCompletion.create (request : ChatCompletionRequest)
    (events : List StreamItem) : Except String ChatCompletion :=
  openai_post ChatCompletion "chat/completions" request.serialize events

/-- `serde_json::from_str::<ChatCompletionEvent>`: the external text parser
(abstract `parse`) followed by the derived typed decode. -/
def fromStr (parse : String → Option Json) (s : String) : Option ChatCompletionEvent :=
  (parse s).bind ChatCompletionEvent.decode

/-- The body of the `filter_map` closure in `create_stream` (chat.rs 164-171):
a message whose `data` is not `"[DONE]"` is decoded with
`serde_json::from_str(..).unwrap()` (panic on decode failure); everything
else — the `"[DONE]"` sentinel (the match guard fails), `Event::Open`, and
transport errors — falls to the `_` arm and yields `None`. -/
def processEvent (parse : String → Option Json) (item : StreamItem) :
    Except String (Option ChatCompletionEvent) :=
  match item with
  | .ok (.message data) =>
    if data ≠ "[DONE]" then
      match fromStr parse data with
      | some x => .ok (some x)
      | none => .error unwrapPanic
    else
      .ok none
  | _ => .ok none

/-- chat.rs, `ChatCompletionBuilder::create_stream`: the produced stream is the
`filter_map` of `processEvent` over the incoming items; a panic inside the
closure aborts the whole stream. -/
def create_stream (parse : String → Option Json) :
    List StreamItem → Except String (List ChatCompletionEvent)
  | [] => .ok []
  | item :: rest =>
    match processEvent parse item with
    | .error e => .error e
    | .ok o =>
      match create_stream parse rest with
      | .error e => .error e
      | .ok tail =>
        .ok (match o with
             | some x => x :: tail
             | none => tail)

/-- The payloads `create_stream` hands to `serde_json::from_str`: exactly the
`data` of message events that pass the `msg.data != "[DONE]"` guard. -/
def decoderInputs (items : List StreamItem) : List String :=
  items.filterMap fun item =>
    match item with
    | .ok (.message data) => if data ≠ "[DONE]" then some data else none
    | _ => none

/-- Modelled from the spec: the structured application-level error body
(`OpenAiError` of the `openai_bootstrap` crate, not part of src/); the spec
only requires it to be "a typed error value distinguishable from transport
errors". -/
structure OpenAiError where
  message : String
  deriving Repr, DecidableEq

/-- embeddings.rs, `Embedding`: `{ embedding: Vec<f32> }`, the vector field
renamed to `vec` on the Rust side. -/
structure Embedding where
  vec : List Rat
  deriving Repr, DecidableEq

/-- embeddings.rs, `Embeddings`: `{ data: Vec<Embedding>, model, usage }`. -/
structure Embeddings where
  data : List Embedding
  model : ModelID
  usage : Usage
  deriving Repr, DecidableEq

/-- `Vec::swap_remove(i)`: removes and returns the element at `i` after
swapping it with the last element; `i ≥ len` is a panic.  Returns the removed
element and the remaining vector. -/
def swapRemove (l : List α) (i : Nat) : Except String (α × List α) :=
  if h : i < l.length then
    .ok (l.get ⟨i, h⟩, ((l.set i (l.getLast (by intro hn; simp [hn] at h))).take (l.length - 1)))
  else
    .error "swap_remove index out of bounds"

/-- embeddings.rs, `Embedding::new`: delegates to `Embeddings::new` (whose
network outcome is the `response` input here) and on success returns
`embeddings.data.swap_remove(0)`; an application-level error is passed
through.  The outer `Except String` carries a possible panic. -/
def Embedding.new (response : Except OpenAiError Embeddings) :
    Except String (Except OpenAiError Embedding) :=
  match response with
  | .ok embeddings =>
    match swapRemove embeddings.data 0 with
    | .ok (x, _) => .ok (.ok x)
    | .error e => .error e
  | .error e => .ok (.error e)

/-! Concrete data: the three streaming chunks of chat.rs's
`test_event_deserialization`, as parsed JSON documents and as raw `data`
payload text, plus a parse oracle for them standing in for `serde_json`'s
text-level parser. -/

/-- The role-announcement chunk of `test_event_deserialization`, parsed. -/
def roleJson : Json :=
  .obj [("id", .str "chatcmpl-6wBU7HGxEXqdShNC81ZlfkOLDM0MF"),
        ("object", .str "chat.completion.chunk"),
        ("created", .num 1679325191),
        ("model", .str "gpt-3.5-turbo"),
        ("choices", .arr [.obj [("delta", .obj [("role", .str "assistant")]),
                                ("index", .num 0),
                                ("finish_reason", .null)]])]

/-- The content-fragment chunk of `test_event_deserialization`, parsed. -/
def contentJson : Json :=
  .obj [("id", .str "chatcmpl-6wBU7HGxEXqdShNC81ZlfkOLDM0MF"),
        ("object", .str "chat.completion.chunk"),
        ("created", .num 1679325191),
        ("model", .str "gpt-3.5-turbo"),
        ("choices", .arr [.obj [("delta", .obj [("content", .str "foobar")]),
                                ("index", .num 0),
                                ("finish_reason", .null)]])]

/-- The end-of-stream chunk of `test_event_deserialization`, parsed. -/
def endOfStreamJson : Json :=
  .obj [("id", .str "chatcmpl-6wBU7HGxEXqdShNC81ZlfkOLDM0MF"),
        ("object", .str "chat.completion.chunk"),
        ("created", .num 1679325191),
        ("model", .str "gpt-3.5-turbo"),
        ("choices", .arr [.obj [("delta", .obj []),
                                ("index", .num 0),
                                ("finish_reason", .str "stop")]])]

/-- Raw SSE `data` payload of the content-fragment chunk. -/
def contentText : String :=
  "\x7b\"id\":\"chatcmpl-6wBU7HGxEXqdShNC81ZlfkOLDM0MF\",\"object\":\"chat.completion.chunk\",\"created\":1679325191,\"model\":\"gpt-3.5-turbo\",\"choices\":[\x7b\"delta\":\x7b\"content\":\"foobar\"\x7d,\"index\":0,\"finish_reason\":null\x7d]\x7d"

/-- Raw SSE `data` payload of the role-announcement chunk. -/
def roleText : String :=
  "\x7b\"id\":\"chatcmpl-6wBU7HGxEXqdShNC81ZlfkOLDM0MF\",\"object\":\"chat.completion.chunk\",\"created\":1679325191,\"model\":\"gpt-3.5-turbo\",\"choices\":[\x7b\"delta\":\x7b\"role\":\"assistant\"\x7d,\"index\":0,\"finish_reason\":null\x7d]\x7d"

/-- A payload that is not valid JSON at all. -/
def garbageText : String := "lolwut"

/-- A concrete stand-in for `serde_json`'s text-level parser, defined on the
payload texts above and failing elsewhere (in particular on `"[DONE]"` and on
`garbageText`). -/
def testParse (s : String) : Option Json :=
  if s = roleText then some roleJson
  else if s = contentText then some contentJson
  else none

/-- The `ChatCompletionEvent` the content-fragment chunk decodes to
(the expected value asserted by `test_event_deserialization`). -/
def contentEvent : ChatCompletionEvent :=
  { id := "chatcmpl-6wBU7HGxEXqdShNC81ZlfkOLDM0MF"
    object := "chat.completion.chunk"
    created := 1679325191
    model := .gpt3_5Turbo
    choices := [{ index := 0, delta := .content "foobar", finish_reason := none }] }

/-- A one-message conversation, as in the crate's `chat` test. -/
def sampleMessage : ChatCompletionMessage :=
  { role := .user, content := "Hello!", name := none }

/-- The request built from `ChatCompletion::builder` with no optional setter
called: every optional parameter left unset. -/
def sampleRequest : ChatCompletionRequest :=
  { model := .gpt3_5Turbo
    messages := [sampleMessage]
    temperature := none
    top_p := none
    n := none
    stream := some true
    stop := []
    max_tokens := none
    presence_penalty := none
    frequency_penalty := none
    logit_bias := none
    user := "" }

/-! Helper lemmas about the serialized key lists. -/

set_option maxRecDepth 4000

theorem jsonKeys_nil : jsonKeys [] = [] := rfl

theorem jsonKeys_cons (k : String) (v : Json) (rest : List (String × Json)) :
    jsonKeys ((k, v) :: rest) = k :: jsonKeys rest := rfl

theorem jsonKeys_append (a b : List (String × Json)) :
    jsonKeys (a ++ b) = jsonKeys a ++ jsonKeys b := List.map_append _ a b

theorem jsonKeys_optField (key : String) (enc : α → Json) (o : Option α) :
    jsonKeys (ChatCompletionRequest.optField key enc o) = optKey key o := by
  cases o <;> rfl

theorem mem_optKey_iff {s key : String} {o : Option α} :
    s ∈ optKey key o ↔ s = key ∧ o ≠ none := by
  cases o <;> simp [optKey]

theorem mem_ite_nil_iff {c : Prop} [Decidable c] {s key : String} :
    s ∈ (if c then ([] : List String) else [key]) ↔ s = key ∧ ¬c := by
  split <;> rename_i hc <;> simp [hc]

theorem jsonKeys_serializeFields (r : ChatCompletionRequest) :
    jsonKeys r.serializeFields =
      ["model", "messages"]
        ++ optKey "temperature" r.temperature
        ++ optKey "top_p" r.top_p
        ++ optKey "n" r.n
        ++ optKey "stream" r.stream
        ++ (if r.stop = [] then [] else ["stop"])
        ++ optKey "max_tokens" r.max_tokens
        ++ optKey "presence_penalty" r.presence_penalty
        ++ optKey "frequency_penalty" r.frequency_penalty
        ++ optKey "logit_bias" r.logit_bias
        ++ (if r.user = "" then [] else ["user"]) := by
  unfold ChatCompletionRequest.serializeFields
  by_cases hstop : r.stop = [] <;> by_cases huser : r.user = "" <;>
    simp [hstop, huser, jsonKeys_append, jsonKeys_optField, jsonKeys_cons, jsonKeys_nil]

theorem mem_keys_serializeFields {r : ChatCompletionRequest} {s : String}
    (h : s ∈ jsonKeys r.serializeFields) :
    s = "model" ∨ s = "messages" ∨
      (s = "temperature" ∧ r.temperature ≠ none) ∨
      (s = "top_p" ∧ r.top_p ≠ none) ∨
      (s = "n" ∧ r.n ≠ none) ∨
      (s = "stream" ∧ r.stream ≠ none) ∨
      (s = "stop" ∧ r.stop ≠ []) ∨
      (s = "max_tokens" ∧ r.max_tokens ≠ none) ∨
      (s = "presence_penalty" ∧ r.presence_penalty ≠ none) ∨
      (s = "frequency_penalty" ∧ r.frequency_penalty ≠ none) ∨
      (s = "logit_bias" ∧ r.logit_bias ≠ none) ∨
      (s = "user" ∧ r.user ≠ "") := by
  rw [jsonKeys_serializeFields] at h
  simp only [List.mem_append, List.mem_cons, List.mem_singleton, List.not_mem_nil,
    or_false, false_or, or_assoc, mem_optKey_iff, mem_ite_nil_iff] at h
  exact h

/-- The evaluated decode of one `skip_serializing_if = "Option::is_none"`
integer field on the wire: `Json.asNat` undoes `Json.num` on a `Nat`. -/
theorem asNat_natCast (k : Nat) : Json.asNat (.num k) = some k := by
  simp [Json.asNat]

/-- Decoding the untagged encoding of a `Delta` restores the same variant. -/
theorem delta_decode_encode (d : Delta) : Delta.decode d.encode = some d := by
  cases d with
  | role r => cases r <;> rfl
  | content c => rfl
  | endOfStream => rfl

/-- A serialized request whose `stream` field is `Some(true)` carries the
`"stream": true` pair. -/
theorem stream_field_serialized (r : ChatCompletionRequest) (h : r.stream = some true) :
    ("stream", Json.bool true) ∈ r.serializeFields := by
  simp [ChatCompletionRequest.serializeFields, ChatCompletionRequest.optField, h]


/-! The claims. -/

/-- C1 (amended): a raw event whose `data` payload is the literal termination
sentinel `"[DONE]"`, wherever it appears in the incoming stream, is never
passed to the JSON decoder (it never occurs among `create_stream`'s decoder
inputs); however the produced sequence does NOT end at that point — the
sentinel event is merely filtered out, and the stream of later events is
processed unchanged. -/
theorem create_stream_done_sentinel (parse : String → Option Json)
    (rest : List StreamItem) :
    (∀ items : List StreamItem, (decoderInputs items).count "[DONE]" = 0) ∧
    create_stream parse (.ok (.message "[DONE]") :: rest) =
      create_stream parse rest := by
  constructor
  · intro items
    rw [List.count_eq_zero]
    intro hmem
    unfold decoderInputs at hmem
    rcases List.mem_filterMap.mp hmem with ⟨item, _, hf⟩
    rcases item with e | m
    · rcases e with _ | d
      · simp at hf
      · by_cases hd : d = "[DONE]"
        · simp [hd] at hf
        · simp [hd] at hf
    · simp at hf
  · cases h : create_stream parse rest <;>
      simp [create_stream, processEvent, h]

/-- C1 counterexample: with the sentinel followed by a decodable event, the
produced sequence still contains the later event — it does not end at the
sentinel, refuting the claim that the sentinel terminates the sequence. -/
theorem create_stream_done_sentinel_counterexample :
    create_stream testParse
        [.ok (.message "[DONE]"), .ok (.message contentText)] =
      .ok [contentEvent] := rfl

/-- C2 (amended): an event whose payload (other than the sentinel) fails to
decode as a `ChatCompletionEvent` makes `create_stream` panic — the
`unwrap` of the failed `serde_json` decode — aborting the whole produced
sequence, so a valid event arriving after the malformed one is never decoded
or emitted. -/
theorem create_stream_undecodable_panics (parse : String → Option Json)
    (d : String) (rest : List StreamItem)
    (hd : d ≠ "[DONE]") (hdec : fromStr parse d = none) :
    create_stream parse (.ok (.message d) :: rest) = .error unwrapPanic := by
  simp [create_stream, processEvent, hd, hdec]

/-- C2 witness: the amended theorem applied to the undecodable payload
`garbageText` on the concrete parser. -/
theorem create_stream_undecodable_panics_witness :
    create_stream testParse [.ok (.message garbageText)] = .error unwrapPanic :=
  create_stream_undecodable_panics testParse garbageText [] (by decide) rfl

/-- C2 counterexample: a malformed payload followed by a valid one aborts the
whole stream with the `unwrap` panic; the valid event is never emitted,
refuting both the no-panic guarantee and the continued decoding. -/
theorem create_stream_panic_counterexample :
    create_stream testParse
        [.ok (.message garbageText), .ok (.message contentText)] =
      .error unwrapPanic := rfl

/-- C3: the three example payloads of `test_event_deserialization`, each
wrapped in its `ChatCompletionEvent` envelope, decode in order to choice
deltas whose `Delta` variants are `Role` with role `Assistant`, `Content`
with content `"foobar"`, and `EndOfStream` with finish_reason `"stop"`. -/
theorem test_event_deserialization :
    ChatCompletionEvent.decode roleJson =
      some { id := "chatcmpl-6wBU7HGxEXqdShNC81ZlfkOLDM0MF"
             object := "chat.completion.chunk"
             created := 1679325191
             model := .gpt3_5Turbo
             choices := [{ index := 0
                           delta := .role .assistant
                           finish_reason := none }] } ∧
    ChatCompletionEvent.decode contentJson =
      some { id := "chatcmpl-6wBU7HGxEXqdShNC81ZlfkOLDM0MF"
             object := "chat.completion.chunk"
             created := 1679325191
             model := .gpt3_5Turbo
             choices := [{ index := 0
                           delta := .content "foobar"
                           finish_reason := none }] } ∧
    ChatCompletionEvent.decode endOfStreamJson =
      some { id := "chatcmpl-6wBU7HGxEXqdShNC81ZlfkOLDM0MF"
             object := "chat.completion.chunk"
             created := 1679325191
             model := .gpt3_5Turbo
             choices := [{ index := 0
                           delta := .endOfStream
                           finish_reason := some "stop" }] } :=
  ⟨rfl, rfl, rfl⟩

/-- C4: a transport-level connection/parse failure on the event stream is
dropped by `create_stream` — it contributes nothing to the produced sequence
and the remaining events are processed exactly as without it (the error is
swallowed, not surfaced). -/
theorem create_stream_swallows_transport_failures (parse : String → Option Json)
    (failure : String) (rest : List StreamItem) :
    create_stream parse (.transportFailure failure :: rest) =
      create_stream parse rest := by
  cases h : create_stream parse rest <;>
    simp [create_stream, processEvent, h]

/-- C5: in the serialized JSON payload of any `ChatCompletionRequest`, every
optional parameter that was left unset — `temperature`, `top_p`, `n`, `stop`,
`max_tokens`, `presence_penalty`, `frequency_penalty`, `logit_bias`, `user`,
and the optional message `name` — is omitted entirely (its key never occurs,
so in particular it is not serialized as `null`). -/
theorem chat_request_unset_optionals_omitted (r : ChatCompletionRequest) :
    (r.temperature = none → "temperature" ∉ jsonKeys r.serializeFields) ∧
    (r.top_p = none → "top_p" ∉ jsonKeys r.serializeFields) ∧
    (r.n = none → "n" ∉ jsonKeys r.serializeFields) ∧
    (r.stop = [] → "stop" ∉ jsonKeys r.serializeFields) ∧
    (r.max_tokens = none → "max_tokens" ∉ jsonKeys r.serializeFields) ∧
    (r.presence_penalty = none → "presence_penalty" ∉ jsonKeys r.serializeFields) ∧
    (r.frequency_penalty = none → "frequency_penalty" ∉ jsonKeys r.serializeFields) ∧
    (r.logit_bias = none → "logit_bias" ∉ jsonKeys r.serializeFields) ∧
    (r.user = "" → "user" ∉ jsonKeys r.serializeFields) ∧
    (∀ m ∈ r.messages, m.name = none → "name" ∉ jsonKeys m.serializeFields) := by
  refine ⟨?_, ?_, ?_, ?_, ?_, ?_, ?_, ?_, ?_, ?_⟩
  · intro h hmem
    rcases mem_keys_serializeFields hmem with
      hc | hc | hc | hc | hc | hc | hc | hc | hc | hc | hc | hc <;> simp_all
  · intro h hmem
    rcases mem_keys_serializeFields hmem with
      hc | hc | hc | hc | hc | hc | hc | hc | hc | hc | hc | hc <;> simp_all
  · intro h hmem
    rcases mem_keys_serializeFields hmem with
      hc | hc | hc | hc | hc | hc | hc | hc | hc | hc | hc | hc <;> simp_all
  · intro h hmem
    rcases mem_keys_serializeFields hmem with
      hc | hc | hc | hc | hc | hc | hc | hc | hc | hc | hc | hc <;> simp_all
  · intro h hmem
    rcases mem_keys_serializeFields hmem with
      hc | hc | hc | hc | hc | hc | hc | hc | hc | hc | hc | hc <;> simp_all
  · intro h hmem
    rcases mem_keys_serializeFields hmem with
      hc | hc | hc | hc | hc | hc | hc | hc | hc | hc | hc | hc <;> simp_all
  · intro h hmem
    rcases mem_keys_serializeFields hmem with
      hc | hc | hc | hc | hc | hc | hc | hc | hc | hc | hc | hc <;> simp_all
  · intro h hmem
    rcases mem_keys_serializeFields hmem with
      hc | hc | hc | hc | hc | hc | hc | hc | hc | hc | hc | hc <;> simp_all
  · intro h hmem
    rcases mem_keys_serializeFields hmem with
      hc | hc | hc | hc | hc | hc | hc | hc | hc | hc | hc | hc <;> simp_all
  · intro m _ h hmem
    simp [ChatCompletionMessage.serializeFields, h, jsonKeys] at hmem

/-- C5 witness: the theorem applied to `sampleRequest` (every optional
parameter unset) and its message (no `name`). -/
theorem chat_request_unset_optionals_omitted_witness :
    "temperature" ∉ jsonKeys sampleRequest.serializeFields ∧
    "top_p" ∉ jsonKeys sampleRequest.serializeFields ∧
    "n" ∉ jsonKeys sampleRequest.serializeFields ∧
    "stop" ∉ jsonKeys sampleRequest.serializeFields ∧
    "max_tokens" ∉ jsonKeys sampleRequest.serializeFields ∧
    "presence_penalty" ∉ jsonKeys sampleRequest.serializeFields ∧
    "frequency_penalty" ∉ jsonKeys sampleRequest.serializeFields ∧
    "logit_bias" ∉ jsonKeys sampleRequest.serializeFields ∧
    "user" ∉ jsonKeys sampleRequest.serializeFields ∧
    "name" ∉ jsonKeys sampleMessage.serializeFields := by
  obtain ⟨h1, h2, h3, h4, h5, h6, h7, h8, h9, h10⟩ :=
    chat_request_unset_optionals_omitted sampleRequest
  exact ⟨h1 rfl, h2 rfl, h3 rfl, h4 rfl, h5 rfl, h6 rfl, h7 rfl, h8 rfl, h9 rfl,
         h10 sampleMessage (by simp [sampleRequest]) rfl⟩

/-- C6: building a chat completion request with either required field unset —
the model identifier or the message sequence — is a build-time error: `build`
does not produce a request value. -/
theorem builder_missing_required_field_rejected (b : ChatCompletionBuilder)
    (h : b.model = none ∨ b.messages = none) :
    b.build.isOk = false := by
  rcases h with h | h
  · simp [ChatCompletionBuilder.build, h, Except.isOk, Except.toBool]
  · cases hm : b.model <;>
      simp [ChatCompletionBuilder.build, h, hm, Except.isOk, Except.toBool]

/-- C6 witness: the theorem applied to the empty builder. -/
theorem builder_missing_required_field_rejected_witness :
    ChatCompletionBuilder.createEmpty.build.isOk = false :=
  builder_missing_required_field_rejected ChatCompletionBuilder.createEmpty
    (Or.inl rfl)

/-- C7: `ChatCompletion::create` routes through `openai_request` of lib.rs,
which drains the event source and then hits the `todo!()` placeholder: every
call panics before returning, so no successful call returning choices and
usage accounting exists — the code contradicts the specified (and
commented-out) single round-trip contract. -/
theorem chat_completion_create_hits_todo (request : ChatCompletionRequest)
    (events : List StreamItem) :
    ChatCompletion.create request events = .error todoPanic := rfl

/-- C8: decoding a valid choice-delta payload and then re-encoding the decoded
value across the untagged wire encoding preserves the discriminated `Delta`
variant and all its fields: the re-encoded document decodes to the very same
value. -/
theorem choice_delta_roundtrip (j : Json) (cd : ChatCompletionChoiceDelta)
    (h : ChatCompletionChoiceDelta.decode j = some cd) :
    ChatCompletionChoiceDelta.decode cd.encode = some cd := by
  rcases cd with ⟨idx, d, fr⟩
  cases fr <;>
    simp [ChatCompletionChoiceDelta.encode, ChatCompletionChoiceDelta.decode,
      ChatCompletionChoiceDelta.decodeOptString, Json.isObj, Json.getField,
      Json.getField.lookupField, asNat_natCast, delta_decode_encode]

/-- C8 witness: the theorem applied to the content-fragment choice delta of
the crate's test data. -/
theorem choice_delta_roundtrip_witness :
    ChatCompletionChoiceDelta.decode
        (ChatCompletionChoiceDelta.encode ⟨0, .content "foobar", none⟩) =
      some ⟨0, .content "foobar", none⟩ :=
  choice_delta_roundtrip
    (.obj [("delta", .obj [("content", .str "foobar")]), ("index", .num 0),
           ("finish_reason", .null)])
    ⟨0, .content "foobar", none⟩ (by decide)

/-- C9: every request the builder produces has its streaming flag set: the
builder holds no state for `stream` (its setter is skipped), `build` fills in
`Some(true)`, and the serialized payload carries `"stream": true`. -/
theorem built_request_streams (b : ChatCompletionBuilder)
    (r : ChatCompletionRequest) (h : b.build = .ok r) :
    r.stream = some true ∧ ("stream", Json.bool true) ∈ r.serializeFields := by
  have hs : r.stream = some true := by
    unfold ChatCompletionBuilder.build at h
    cases hm : b.model with
    | none => rw [hm] at h; exact absurd h (by simp)
    | some m =>
      cases hmsg : b.messages with
      | none => rw [hm, hmsg] at h; exact absurd h (by simp)
      | some msgs =>
        rw [hm, hmsg] at h
        injection h with h
        rw [← h]
  exact ⟨hs, stream_field_serialized r hs⟩

/-- C9 witness: the theorem applied to the builder of the sample
conversation, which builds exactly `sampleRequest`. -/
theorem built_request_streams_witness :
    sampleRequest.stream = some true ∧
    ("stream", Json.bool true) ∈ sampleRequest.serializeFields :=
  built_request_streams
    (ChatCompletion.builder .gpt3_5Turbo [sampleMessage]) sampleRequest rfl

/-- C10: `Embedding::new` needs the successful `Embeddings` response to carry
at least one element: on a non-empty `data` list it returns the first
embedding (via `swap_remove(0)`), and on an empty list the `swap_remove(0)`
panics — no error value is returned. -/
theorem embedding_new_first_or_panic (model : ModelID) (usage : Usage) :
    (∀ (x : Embedding) (xs : List Embedding),
        Embedding.new (.ok ⟨x :: xs, model, usage⟩) = .ok (.ok x)) ∧
    Embedding.new (.ok ⟨[], model, usage⟩) =
      .error "swap_remove index out of bounds" := by
  constructor
  · intro x xs
    simp [Embedding.new, swapRemove]
  · simp [Embedding.new, swapRemove]
